import Mathlib

/-!
Verification of the escrow-gated marketplace workflow of the ModerIA
repository.  The definitions below are a shallow embedding of the three
action providers that own the entities of the data model:

* `ERC20EscrowActionProvider` (createEscrow / releaseEscrow /
  refundEscrow) — the Escrow Manager;
* `ModeriaActionProvider` (bookService / releaseFunds /
  analyzeServiceQuality) — the integrated workflow provider;
* `MarketplaceActionProvider` (createService / listServices /
  bookService / fileDispute / resolveDispute) — the Service
  Registry, Booking Coordinator and Dispute Resolver.

Persistent storage (Recall buckets / local JSON files) is modelled as
association lists from keys to typed records; an on-chain USDC transfer
is modelled as an entry appended to a transfer log.  Generated
identifiers and timestamps, which the source draws from `Date.now()` and
`crypto.randomBytes`, are passed in as parameters or replaced by fixed
constants, since no property below depends on their values.
-/

namespace ModerIA

/-- Store a value under a key in an association list, replacing an
existing binding (the overwrite semantics of `bucketManager.add` and of
`fs.writeFileSync` on an existing path) or appending a new one. -/
def putAssoc {α : Type} : List (String × α) → String → α → List (String × α)
  | [], k, v => [(k, v)]
  | (k', v') :: rest, k, v =>
    if k' = k then (k, v) :: rest else (k', v') :: putAssoc rest k v

/-- Look a key up in an association list (the `get` primitive of the
stores used by the providers). -/
def getAssoc {α : Type} : List (String × α) → String → Option α
  | [], _ => none
  | (k', v') :: rest, k => if k' = k then some v' else getAssoc rest k

theorem getAssoc_putAssoc_self {α : Type} (l : List (String × α)) (k : String) (v : α) :
    getAssoc (putAssoc l k v) k = some v := by
  induction l with
  | nil => simp [putAssoc, getAssoc]
  | cons p rest ih =>
    by_cases h : p.1 = k
    · simp [putAssoc, getAssoc, h]
    · simp [putAssoc, getAssoc, h, ih]

theorem self_mem_putAssoc {α : Type} (l : List (String × α)) (k : String) (v : α) :
    (k, v) ∈ putAssoc l k v := by
  induction l with
  | nil => simp [putAssoc]
  | cons p rest ih =>
    by_cases h : p.1 = k
    · simp [putAssoc, h]
    · simp [putAssoc, h, ih]

theorem mem_keys_putAssoc {α : Type} (k k' : String) (v : α) :
    ∀ l : List (String × α),
      k' ∈ (putAssoc l k v).map Prod.fst → k' = k ∨ k' ∈ l.map Prod.fst
  | [] => by
    intro h
    simp [putAssoc] at h
    exact Or.inl h
  | p :: rest => by
    intro h
    by_cases hp : p.1 = k
    · simp [putAssoc, hp] at h
      rcases h with h | h
      · exact Or.inl h
      · exact Or.inr (by simp [h])
    · simp [putAssoc, hp] at h
      rcases h with h | h
      · exact Or.inr (by simp [h])
      · rcases mem_keys_putAssoc k k' v rest (by simpa using h) with h' | h'
        · exact Or.inl h'
        · exact Or.inr (by simp [h'])

theorem nodup_keys_putAssoc {α : Type} (k : String) (v : α) :
    ∀ l : List (String × α),
      (l.map Prod.fst).Nodup → ((putAssoc l k v).map Prod.fst).Nodup
  | [] => by
    intro _
    simp [putAssoc]
  | p :: rest => by
    intro hnd
    rw [List.map_cons, List.nodup_cons] at hnd
    by_cases hp : p.1 = k
    · rw [putAssoc, if_pos hp, List.map_cons, List.nodup_cons]
      exact ⟨hp ▸ hnd.1, hnd.2⟩
    · rw [putAssoc, if_neg hp, List.map_cons, List.nodup_cons]
      refine ⟨fun hmem => ?_, nodup_keys_putAssoc k v rest hnd.2⟩
      rcases mem_keys_putAssoc k p.1 v rest hmem with h | h
      · exact hp h
      · exact hnd.1 h

theorem mem_putAssoc {α : Type} (k : String) (v : α) :
    ∀ (l : List (String × α)) (p : String × α),
      (l.map Prod.fst).Nodup → p ∈ putAssoc l k v →
      p = (k, v) ∨ (p ∈ l ∧ p.1 ≠ k)
  | [] => by
    intro p _ hp
    simp [putAssoc] at hp
    exact Or.inl hp
  | q :: rest => by
    intro p hnd hp
    rw [List.map_cons, List.nodup_cons] at hnd
    by_cases h : q.1 = k
    · rw [putAssoc, if_pos h, List.mem_cons] at hp
      rcases hp with hp | hp
      · exact Or.inl hp
      · refine Or.inr ⟨List.mem_cons_of_mem _ hp, fun hk => ?_⟩
        exact (h ▸ hnd.1) (hk ▸ List.mem_map_of_mem Prod.fst hp)
    · rw [putAssoc, if_neg h, List.mem_cons] at hp
      rcases hp with hp | hp
      · exact Or.inr ⟨by simp [hp], by simp [hp, h]⟩
      · rcases mem_putAssoc k v rest p hnd.2 hp with h' | h'
        · exact Or.inl h'
        · exact Or.inr ⟨List.mem_cons_of_mem _ h'.1, h'.2⟩

/-! ## ERC20 escrow provider (`ERC20EscrowActionProvider`)

Shallow embedding of `releaseEscrow` and `refundEscrow`.  The escrow
records live in local JSON storage keyed by escrow id; a USDC
`transfer` contract call is modelled as an appended `Transfer` entry.
The token amount (`parseUnits(escrowDetails.amount, USDC_DECIMALS)`) is
modelled directly as a natural number of token base units. -/

/-- `EscrowStatus` from the constants of the escrow provider
("pending" / "released" / "refunded" / "cancelled"). -/
inductive EscrowStatus
  | pending
  | released
  | refunded
  | cancelled
deriving DecidableEq, Repr

/-- The `EscrowTransaction` record of the schemas of the escrow provider
(timestamps and the free-form metadata map are omitted: no operation
branches on them). -/
structure EscrowTransaction where
  id : String
  clientAddress : String
  agentAddress : String
  providerAddress : String
  tokenAddress : String
  amount : Nat
  serviceId : String
  status : EscrowStatus
  clientTxHash : Option String
  releaseTxHash : Option String
deriving DecidableEq, Repr

/-- One executed ERC20 `transfer` call. -/
structure Transfer where
  fromAddr : String
  toAddr : String
  amount : Nat
deriving DecidableEq, Repr

/-- The world of the escrow provider: its transaction store plus the log of
token transfers it has executed. -/
structure EscrowState where
  store : List (String × EscrowTransaction)
  transfers : List Transfer
deriving DecidableEq, Repr

/-- `ERROR_MESSAGES.ESCROW_NOT_FOUND`. -/
def ESCROW_NOT_FOUND : String := "Escrow transaction not found"

/-- `ERROR_MESSAGES.ESCROW_ALREADY_RELEASED` (thrown by both release and
refund whenever the status is not pending). -/
def ESCROW_ALREADY_RELEASED : String := "Escrow has already been released"

/-- Stand-in for the transaction hash produced by the transfer (random
in the demo mode of the source; its value is never inspected). -/
def simTxHash : String := "0xsimulated"

/-- `releaseEscrow`: look the escrow up, require status pending,
transfer the full amount from the agent to the provider, store the
record back with status released. -/
def releaseEscrow (s : EscrowState) (escrowId : String) : Except String EscrowState :=
  match getAssoc s.store escrowId with
  | none => .error ESCROW_NOT_FOUND
  | some e =>
    if e.status ≠ EscrowStatus.pending then
      .error ESCROW_ALREADY_RELEASED
    else
      .ok { store := putAssoc s.store escrowId
              { e with status := EscrowStatus.released, releaseTxHash := some simTxHash },
            transfers := s.transfers ++ [⟨e.agentAddress, e.providerAddress, e.amount⟩] }

/-- `refundEscrow`: look the escrow up, require status pending, transfer
the full amount from the agent back to the client, store the record back
with status refunded.  Note the absence of any percentage argument: the
RefundEscrowSchema of the source has only `escrowId` and `reason`. -/
def refundEscrow (s : EscrowState) (escrowId : String) : Except String EscrowState :=
  match getAssoc s.store escrowId with
  | none => .error ESCROW_NOT_FOUND
  | some e =>
    if e.status ≠ EscrowStatus.pending then
      .error ESCROW_ALREADY_RELEASED
    else
      .ok { store := putAssoc s.store escrowId
              { e with status := EscrowStatus.refunded, releaseTxHash := some simTxHash },
            transfers := s.transfers ++ [⟨e.agentAddress, e.clientAddress, e.amount⟩] }

/-- A call against a fixed escrow: either `releaseEscrow` or
`refundEscrow`. -/
inductive EscrowOp
  | release
  | refund
deriving DecidableEq, Repr

def applyEscrowOp (s : EscrowState) (eid : String) : EscrowOp → Except String EscrowState
  | .release => releaseEscrow s eid
  | .refund => refundEscrow s eid

/-- Run a sequence of release/refund calls against the escrow `eid`,
counting the calls that succeed (a failing call raises an error in the
source and leaves storage and chain untouched). -/
def runEscrowOps (s : EscrowState) (eid : String) : List EscrowOp → Nat × EscrowState
  | [] => (0, s)
  | op :: ops =>
    match applyEscrowOp s eid op with
    | .ok s' => ((runEscrowOps s' eid ops).1 + 1, (runEscrowOps s' eid ops).2)
    | .error _ => runEscrowOps s eid ops

/-- Current stored status of an escrow. -/
def escrowStatusOf (s : EscrowState) (eid : String) : Option EscrowStatus :=
  (getAssoc s.store eid).map (fun e => e.status)

theorem applyEscrowOp_not_pending {s : EscrowState} {eid : String} (op : EscrowOp)
    (h : escrowStatusOf s eid ≠ some EscrowStatus.pending) :
    ∃ m, applyEscrowOp s eid op = .error m := by
  cases op <;>
    · simp only [applyEscrowOp, releaseEscrow, refundEscrow]
      cases hg : getAssoc s.store eid with
      | none => exact ⟨_, rfl⟩
      | some e =>
        have hne : e.status ≠ EscrowStatus.pending := by
          intro hst
          exact h (by simp [escrowStatusOf, hg, hst])
        exact ⟨ESCROW_ALREADY_RELEASED, by simp [hne]⟩

theorem releaseEscrow_pending {s : EscrowState} {eid : String} {e : EscrowTransaction}
    (hg : getAssoc s.store eid = some e) (hst : e.status = EscrowStatus.pending) :
    releaseEscrow s eid = .ok
      { store := putAssoc s.store eid
          { e with status := EscrowStatus.released, releaseTxHash := some simTxHash },
        transfers := s.transfers ++ [⟨e.agentAddress, e.providerAddress, e.amount⟩] } := by
  simp [releaseEscrow, hg, hst]

theorem refundEscrow_pending {s : EscrowState} {eid : String} {e : EscrowTransaction}
    (hg : getAssoc s.store eid = some e) (hst : e.status = EscrowStatus.pending) :
    refundEscrow s eid = .ok
      { store := putAssoc s.store eid
          { e with status := EscrowStatus.refunded, releaseTxHash := some simTxHash },
        transfers := s.transfers ++ [⟨e.agentAddress, e.clientAddress, e.amount⟩] } := by
  simp [refundEscrow, hg, hst]

theorem applyEscrowOp_ok {s s' : EscrowState} {eid : String} {op : EscrowOp}
    (h : applyEscrowOp s eid op = .ok s') :
    (escrowStatusOf s' eid = some EscrowStatus.released ∨
      escrowStatusOf s' eid = some EscrowStatus.refunded) ∧
    s'.transfers.length = s.transfers.length + 1 := by
  cases op with
  | release =>
    rw [applyEscrowOp] at h
    cases hg : getAssoc s.store eid with
    | none => simp [releaseEscrow, hg] at h
    | some e =>
      by_cases hst : e.status = EscrowStatus.pending
      · rw [releaseEscrow_pending hg hst] at h
        cases h
        exact ⟨Or.inl (by simp [escrowStatusOf, getAssoc_putAssoc_self]), by simp⟩
      · simp [releaseEscrow, hg, hst] at h
  | refund =>
    rw [applyEscrowOp] at h
    cases hg : getAssoc s.store eid with
    | none => simp [refundEscrow, hg] at h
    | some e =>
      by_cases hst : e.status = EscrowStatus.pending
      · rw [refundEscrow_pending hg hst] at h
        cases h
        exact ⟨Or.inr (by simp [escrowStatusOf, getAssoc_putAssoc_self]), by simp⟩
      · simp [refundEscrow, hg, hst] at h

theorem runEscrowOps_not_pending {s : EscrowState} {eid : String}
    (h : escrowStatusOf s eid ≠ some EscrowStatus.pending) :
    ∀ ops : List EscrowOp, runEscrowOps s eid ops = (0, s)
  | [] => rfl
  | op :: ops => by
    obtain ⟨m, hm⟩ := applyEscrowOp_not_pending op h
    rw [runEscrowOps, hm]
    exact runEscrowOps_not_pending h ops

theorem runEscrowOps_effect_le_one (eid : String) :
    ∀ (ops : List EscrowOp) (s : EscrowState), (runEscrowOps s eid ops).1 ≤ 1
  | [] => by intro s; simp [runEscrowOps]
  | op :: ops => by
    intro s
    rw [runEscrowOps]
    cases hop : applyEscrowOp s eid op with
    | ok s' =>
      have hterm := (applyEscrowOp_ok hop).1
      have hne : escrowStatusOf s' eid ≠ some EscrowStatus.pending := by
        rcases hterm with h | h <;> simp [h]
      simp [runEscrowOps_not_pending hne ops]
    | error m => exact runEscrowOps_effect_le_one eid ops s

theorem runEscrowOps_transfers (eid : String) :
    ∀ (ops : List EscrowOp) (s : EscrowState),
      (runEscrowOps s eid ops).2.transfers.length =
        s.transfers.length + (runEscrowOps s eid ops).1
  | [] => by intro s; simp [runEscrowOps]
  | op :: ops => by
    intro s
    rw [runEscrowOps]
    cases hop : applyEscrowOp s eid op with
    | ok s' =>
      have hlen := (applyEscrowOp_ok hop).2
      have := runEscrowOps_transfers eid ops s'
      simp only []
      omega
    | error m => exact runEscrowOps_transfers eid ops s

theorem runEscrowOps_status (eid : String) :
    ∀ (ops : List EscrowOp) (s : EscrowState),
      escrowStatusOf (runEscrowOps s eid ops).2 eid = escrowStatusOf s eid ∨
      escrowStatusOf (runEscrowOps s eid ops).2 eid = some EscrowStatus.released ∨
      escrowStatusOf (runEscrowOps s eid ops).2 eid = some EscrowStatus.refunded
  | [] => by intro s; exact Or.inl rfl
  | op :: ops => by
    intro s
    cases hop : applyEscrowOp s eid op with
    | ok s' =>
      have hterm := (applyEscrowOp_ok hop).1
      have hne : escrowStatusOf s' eid ≠ some EscrowStatus.pending := by
        rcases hterm with h | h <;> simp [h]
      simp only [runEscrowOps, hop, runEscrowOps_not_pending hne ops]
      exact Or.inr hterm
    | error m =>
      simp only [runEscrowOps, hop]
      exact runEscrowOps_status eid ops s

/-- C1: release and refund have effect only on a pending escrow: along
any sequence of `releaseEscrow`/`refundEscrow` calls on an escrow, at
most one call succeeds, each success is exactly one token transfer, the
stored status either stays what it was or becomes released/refunded, and
from any state in which the escrow is not pending every call returns an
error and the whole state (stored record and transfer log) is left
unchanged. -/
theorem escrow_release_refund_terminal (s : EscrowState) (eid : String)
    (ops : List EscrowOp) :
    (runEscrowOps s eid ops).1 ≤ 1 ∧
    (runEscrowOps s eid ops).2.transfers.length =
      s.transfers.length + (runEscrowOps s eid ops).1 ∧
    (escrowStatusOf (runEscrowOps s eid ops).2 eid = escrowStatusOf s eid ∨
      escrowStatusOf (runEscrowOps s eid ops).2 eid = some EscrowStatus.released ∨
      escrowStatusOf (runEscrowOps s eid ops).2 eid = some EscrowStatus.refunded) ∧
    (escrowStatusOf s eid ≠ some EscrowStatus.pending →
      runEscrowOps s eid ops = (0, s)) :=
  ⟨runEscrowOps_effect_le_one eid ops s, runEscrowOps_transfers eid ops s,
    runEscrowOps_status eid ops s, fun h => runEscrowOps_not_pending h ops⟩

/-- An escrow record that has already been released. -/
def releasedEscrowState : EscrowState :=
  { store := [("e1",
      { id := "e1", clientAddress := "0xclient", agentAddress := "0xagent",
        providerAddress := "0xprovider", tokenAddress := "0xusdc", amount := 50,
        serviceId := "s1", status := EscrowStatus.released,
        clientTxHash := some "0xfund", releaseTxHash := some "0xrel" })],
    transfers := [] }

theorem escrow_release_refund_terminal_witness :
    escrowStatusOf releasedEscrowState "e1" ≠ some EscrowStatus.pending ∧
    runEscrowOps releasedEscrowState "e1" [EscrowOp.release, EscrowOp.refund] =
      (0, releasedEscrowState) :=
  ⟨by decide,
    (escrow_release_refund_terminal releasedEscrowState "e1"
      [EscrowOp.release, EscrowOp.refund]).2.2.2 (by decide)⟩

/-- A pending escrow holding 100 token units. -/
def pendingEscrow100 : EscrowState :=
  { store := [("e1",
      { id := "e1", clientAddress := "0xclient", agentAddress := "0xagent",
        providerAddress := "0xprovider", tokenAddress := "0xusdc", amount := 100,
        serviceId := "s1", status := EscrowStatus.pending,
        clientTxHash := some "0xfund", releaseTxHash := none })],
    transfers := [] }

/-- C3 counterexample: the claim predicts that a 40-percent refund of a
pending 100-unit escrow transfers 100 * 40 / 100 = 40 units back to the
client.  `refundEscrow` accepts no percentage at all (its schema has
only `escrowId` and `reason`) and transfers the full 100 units, so the
claimed behaviour is false at this input. -/
theorem refundEscrow_pct_claim_cex :
    (refundEscrow pendingEscrow100 "e1").toOption.map (fun s => s.transfers) =
      some [⟨"0xagent", "0xclient", 100⟩] ∧
    (100 : Nat) ≠ 100 * 40 / 100 := by
  constructor
  · decide
  · decide

/-- C3 (amended): for every escrow in pending status, `refundEscrow`
transfers the full original amount from the agent back to the client and
stores the record back with status refunded; there is no percentage
parameter and no partial split. -/
theorem refundEscrow_transfers_full_amount {s : EscrowState} {eid : String}
    {e : EscrowTransaction} (hg : getAssoc s.store eid = some e)
    (hst : e.status = EscrowStatus.pending) :
    refundEscrow s eid = .ok
      { store := putAssoc s.store eid
          { e with status := EscrowStatus.refunded, releaseTxHash := some simTxHash },
        transfers := s.transfers ++ [⟨e.agentAddress, e.clientAddress, e.amount⟩] } := by
  simp [refundEscrow, hg, hst]

theorem refundEscrow_transfers_full_amount_witness :
    refundEscrow pendingEscrow100 "e1" = .ok
      { store := putAssoc pendingEscrow100.store "e1"
          { id := "e1", clientAddress := "0xclient", agentAddress := "0xagent",
            providerAddress := "0xprovider", tokenAddress := "0xusdc", amount := 100,
            serviceId := "s1", status := EscrowStatus.refunded,
            clientTxHash := some "0xfund", releaseTxHash := some simTxHash },
        transfers := [⟨"0xagent", "0xclient", 100⟩] } :=
  refundEscrow_transfers_full_amount (e :=
    { id := "e1", clientAddress := "0xclient", agentAddress := "0xagent",
      providerAddress := "0xprovider", tokenAddress := "0xusdc", amount := 100,
      serviceId := "s1", status := EscrowStatus.pending,
      clientTxHash := some "0xfund", releaseTxHash := none })
    (by decide) (by decide)

/-! ## Moderia integrated provider (`ModeriaActionProvider`)

Shallow embedding of `releaseFunds`, `analyzeServiceQuality` and the
moderia variant of `bookService`.  Meeting and transcript files under
`moderia_data/` become association lists keyed by meeting id; the
Recall buckets for services/bookings/transactions become association
lists keyed by object key. -/

/-- `MeetingStatus` from the moderia constants. -/
inductive MeetingStatus
  | scheduled
  | joining
  | active
  | ended
  | failed
deriving DecidableEq, Repr

/-- The `Meeting` record of the moderia schemas (start/end times and the
summary fields are omitted: `analyzeServiceQuality` does not touch
them). -/
structure MoMeeting where
  id : String
  bookingId : String
  url : String
  title : String
  status : MeetingStatus
  participantCount : Nat
  hasTranscript : Bool
  hasAnalysis : Bool
  transcriptUrl : String
  qualityScore : Option Nat
deriving DecidableEq, Repr

/-- The moderia `EscrowTransaction` record. -/
structure MoEscrowTx where
  id : String
  bookingId : String
  amount : Nat
  providerAddress : String
  clientAddress : String
  agentAddress : String
  status : EscrowStatus
  createdAt : String
  txHash : Option String
  completedAt : Option String
deriving DecidableEq, Repr

/-- The world of the moderia provider: escrow transactions, meeting records,
stored transcripts (keyed by meeting id) and the token-transfer log. -/
structure MoState where
  escrows : List (String × MoEscrowTx)
  meetings : List (String × MoMeeting)
  transcripts : List (String × String)
  transfers : List Transfer
deriving DecidableEq, Repr

/-- Stand-in for `new Date().toISOString()`. -/
def nowTs : String := "2025-01-01T00:00:00.000Z"

/-- `ERROR_MESSAGES.ESCROW_NOT_FOUND` (moderia constants). -/
def MO_ESCROW_NOT_FOUND : String := "Escrow transaction not found."

/-- The message `Escrow funds have already been <status>. Cannot release
again.` (the interpolated status value is irrelevant to every claim). -/
def MO_ALREADY_SETTLED : String :=
  "Escrow funds have already been settled. Cannot release again."

/-- `releaseFunds`: look the escrow up, require status pending, transfer
`args.amount || escrowTx.amount` from the agent to the provider, store
the record back with status released.  No quality-analysis data is
consulted anywhere on this path. -/
def releaseFunds (s : MoState) (escrowId : String) (amountArg : Option Nat) :
    Except String MoState :=
  match getAssoc s.escrows escrowId with
  | none => .error MO_ESCROW_NOT_FOUND
  | some e =>
    if e.status ≠ EscrowStatus.pending then
      .error MO_ALREADY_SETTLED
    else
      .ok { s with
        escrows := putAssoc s.escrows escrowId
          { e with status := EscrowStatus.released, completedAt := some nowTs },
        transfers := s.transfers ++
          [⟨e.agentAddress, e.providerAddress, amountArg.getD e.amount⟩] }

/-- The outcome of `analyzeServiceQuality`: the overall score of the
produced analysis text, and whether that text ends with the
recommendation that payment be authorized (the template in the source always
does). -/
structure QualityAnalysis where
  score : Nat
  recommendAuthorize : Bool
deriving DecidableEq, Repr

/-- `analyzeServiceQuality`: require the meeting record and a stored
transcript, then attach the booking id and record the hard-coded
`qualityScore = 92` together with the fixed recommendation text; nothing
about the transcript content or the booking influences the result. -/
def analyzeServiceQuality (s : MoState) (meetingId bookingId : String) :
    Except String (MoState × QualityAnalysis) :=
  match getAssoc s.meetings meetingId with
  | none => .error ("Meeting not found with ID: " ++ meetingId)
  | some m =>
    match getAssoc s.transcripts meetingId with
    | none => .error ("Transcript not found for meeting ID: " ++ meetingId)
    | some _ =>
      let m2 : MoMeeting :=
        { m with bookingId := bookingId, hasAnalysis := true, qualityScore := some 92 }
      .ok ({ s with meetings := putAssoc s.meetings meetingId m2 },
           { score := 92, recommendAuthorize := true })

/-- A moderia state holding one pending escrow over 75 units and no
meeting, transcript or quality-analysis data at all. -/
def moPendingState : MoState :=
  { escrows := [("e1",
      { id := "e1", bookingId := "b1", amount := 75,
        providerAddress := "0xprovider", clientAddress := "0xclient",
        agentAddress := "0xagent", status := EscrowStatus.pending,
        createdAt := nowTs, txHash := some "0xfund", completedAt := none })],
    meetings := [], transcripts := [], transfers := [] }

/-- C2 counterexample: in a state with one pending escrow and no quality
evaluation recorded for any meeting (the meeting store is empty),
`releaseFunds` nevertheless succeeds and executes the transfer to the
provider, so a release can happen without a passing quality verdict
having been recorded beforehand. -/
theorem releaseFunds_without_quality_cex :
    moPendingState.meetings = [] ∧
    (releaseFunds moPendingState "e1" none).toOption.map (fun s => s.transfers) =
      some [⟨"0xagent", "0xprovider", 75⟩] := by
  constructor
  · rfl
  · decide

/-- C2 (amended): `releaseFunds` enforces only the pending-status
precondition.  For every pending escrow it transfers the requested (or
full) amount from the agent to the provider and marks the escrow
released, with the meeting/quality-analysis stores arbitrary and left
untouched: no prior quality evaluation is required or consulted. -/
theorem releaseFunds_pending_no_quality_gate
    (escrows : List (String × MoEscrowTx)) (meetings : List (String × MoMeeting))
    (transcripts : List (String × String)) (transfers : List Transfer)
    (eid : String) (amountArg : Option Nat) (e : MoEscrowTx)
    (hg : getAssoc escrows eid = some e) (hst : e.status = EscrowStatus.pending) :
    releaseFunds
        { escrows := escrows, meetings := meetings,
          transcripts := transcripts, transfers := transfers } eid amountArg =
      Except.ok
        { escrows := putAssoc escrows eid { e with
            status := EscrowStatus.released, completedAt := some nowTs },
          meetings := meetings, transcripts := transcripts,
          transfers := transfers ++
            [⟨e.agentAddress, e.providerAddress, amountArg.getD e.amount⟩] } := by
  simp [releaseFunds, hg, hst]

theorem releaseFunds_pending_no_quality_gate_witness :
    releaseFunds moPendingState "e1" (some 75) =
      Except.ok
        { escrows := putAssoc moPendingState.escrows "e1"
            { id := "e1", bookingId := "b1", amount := 75,
              providerAddress := "0xprovider", clientAddress := "0xclient",
              agentAddress := "0xagent", status := EscrowStatus.released,
              createdAt := nowTs, txHash := some "0xfund", completedAt := some nowTs },
          meetings := [], transcripts := [],
          transfers := [⟨"0xagent", "0xprovider", 75⟩] } :=
  releaseFunds_pending_no_quality_gate moPendingState.escrows [] [] []
    "e1" (some 75)
    { id := "e1", bookingId := "b1", amount := 75,
      providerAddress := "0xprovider", clientAddress := "0xclient",
      agentAddress := "0xagent", status := EscrowStatus.pending,
      createdAt := nowTs, txHash := some "0xfund", completedAt := none }
    (by decide) (by decide)

/-- C10: for every meeting with a stored transcript,
`analyzeServiceQuality` succeeds, records the fixed score 92 on the
meeting and returns an analysis recommending that payment be authorized,
whatever the transcript says and whatever booking is supplied; as a
consequence any two runs on meetings with (possibly different stored)
transcripts report the same score. -/
theorem analyzeServiceQuality_fixed_92
    (s : MoState) (mid bid : String) (m : MoMeeting) (tr : String)
    (hm : getAssoc s.meetings mid = some m)
    (ht : getAssoc s.transcripts mid = some tr) :
    analyzeServiceQuality s mid bid =
      Except.ok
        ({ s with meetings := putAssoc s.meetings mid { m with
            bookingId := bid, hasAnalysis := true, qualityScore := some 92 } },
         { score := 92, recommendAuthorize := true }) ∧
    (∀ (s2 : MoState) (mid2 bid2 : String) (m2 : MoMeeting) (tr2 : String),
      getAssoc s2.meetings mid2 = some m2 →
      getAssoc s2.transcripts mid2 = some tr2 →
      (analyzeServiceQuality s mid bid).toOption.map (fun r => r.2.score) =
        (analyzeServiceQuality s2 mid2 bid2).toOption.map (fun r => r.2.score)) := by
  constructor
  · simp [analyzeServiceQuality, hm, ht]
  · intro s2 mid2 bid2 m2 tr2 hm2 ht2
    simp [analyzeServiceQuality, hm, ht, hm2, ht2, Except.toOption]

/-- A concrete meeting record awaiting analysis. -/
def moMeetingRec : MoMeeting :=
  { id := "m1", bookingId := "", url := "https://meet.google.com/abc",
    title := "French class", status := MeetingStatus.ended,
    participantCount := 2, hasTranscript := true, hasAnalysis := false,
    transcriptUrl := "https://otter.ai/note/x", qualityScore := none }

/-- A moderia state with that meeting and a stored transcript. -/
def moMeetingState : MoState :=
  { escrows := [], meetings := [("m1", moMeetingRec)],
    transcripts := [("m1", "Teacher: Hello. Student: Bonjour!")],
    transfers := [] }

theorem analyzeServiceQuality_fixed_92_witness :
    analyzeServiceQuality moMeetingState "m1" "b1" =
      Except.ok
        ({ moMeetingState with
            meetings := putAssoc moMeetingState.meetings "m1" { moMeetingRec with
              bookingId := "b1", hasAnalysis := true, qualityScore := some 92 } },
         { score := 92, recommendAuthorize := true }) :=
  (analyzeServiceQuality_fixed_92 moMeetingState "m1" "b1" moMeetingRec
    "Teacher: Hello. Student: Bonjour!" (by decide) (by decide)).1

/-! ## Service and booking records

`ServiceStatus` ("available" / "booked" / "completed" / "cancelled") is
shared verbatim between the moderia constants and the marketplace
constants. -/

inductive ServiceStatus
  | available
  | booked
  | completed
  | cancelled
deriving DecidableEq, Repr

/-- Moderia `BookingStatus` ("confirmed" / "completed" / "cancelled" /
"disputed"). -/
inductive MoBookingStatus
  | confirmed
  | completed
  | cancelled
  | disputed
deriving DecidableEq, Repr

/-- The moderia `ServiceListing` record (the constant `bucketId` field
is omitted). -/
structure MoServiceListing where
  id : String
  serviceType : String
  providerName : String
  startTime : String
  endTime : String
  price : String
  walletAddress : String
  meetingLink : String
  description : Option String
  status : ServiceStatus
  createdAt : String
  objectKey : String
deriving DecidableEq, Repr

/-- The moderia `ServiceBooking` record (again without the constant
`bucketId`). -/
structure MoBooking where
  id : String
  serviceId : String
  clientName : String
  clientEmail : Option String
  specialRequests : Option String
  bookingTime : String
  status : MoBookingStatus
  escrowId : Option String
  meetingId : Option String
  objectKey : String
deriving DecidableEq, Repr

/-- One write issued by the moderia `bookService` against the Recall
buckets, in issue order. -/
inductive MoWrite
  | bookingW (key : String) (b : MoBooking)
  | serviceW (key : String) (sv : MoServiceListing)
deriving DecidableEq, Repr

/-- The services and bookings buckets of the moderia provider, keyed by
object key. -/
structure MoMarket where
  services : List (String × MoServiceListing)
  bookings : List (String × MoBooking)
deriving DecidableEq, Repr

/-- `ERROR_MESSAGES.SERVICE_NOT_FOUND` (moderia constants). -/
def MO_SERVICE_NOT_FOUND : String := "Service not found."

/-- The message `Service is not available for booking. Current status:
<status>` (the interpolated status is irrelevant to every claim). -/
def MO_SERVICE_UNAVAILABLE : String :=
  "Service is not available for booking."

/-- The moderia `bookService`: scan the services bucket for the listing
with the requested id, require it to be available, then issue — in this
order — the write of the new booking record (status confirmed) followed
by the write of the service record with status booked. -/
def moBookService (mk : MoMarket) (serviceId clientName : String)
    (clientEmail specialRequests : Option String) (bookingId : String) :
    Except String (List MoWrite) :=
  match (mk.services.map Prod.snd).find? (fun sv => sv.id = serviceId) with
  | none => .error MO_SERVICE_NOT_FOUND
  | some sv =>
    if sv.status ≠ ServiceStatus.available then
      .error MO_SERVICE_UNAVAILABLE
    else
      let booking : MoBooking :=
        { id := bookingId, serviceId := serviceId, clientName := clientName,
          clientEmail := clientEmail, specialRequests := specialRequests,
          bookingTime := nowTs, status := MoBookingStatus.confirmed,
          escrowId := none, meetingId := none,
          objectKey := "booking_" ++ bookingId ++ ".json" }
      .ok [MoWrite.bookingW booking.objectKey booking,
           MoWrite.serviceW sv.objectKey { sv with status := ServiceStatus.booked }]

/-- Apply one moderia write to the buckets. -/
def moApplyWrite (mk : MoMarket) : MoWrite → MoMarket
  | .bookingW k b => { mk with bookings := putAssoc mk.bookings k b }
  | .serviceW k sv => { mk with services := putAssoc mk.services k sv }

def moApplyWrites (mk : MoMarket) (ws : List MoWrite) : MoMarket :=
  ws.foldl moApplyWrite mk

/-- Run the moderia `bookService` to completion: on success apply its
writes in order, on error leave the buckets untouched. -/
def moRunBookService (mk : MoMarket) (serviceId clientName : String)
    (clientEmail specialRequests : Option String) (bookingId : String) :
    Except String Unit × MoMarket :=
  match moBookService mk serviceId clientName clientEmail specialRequests bookingId with
  | .ok ws => (.ok (), moApplyWrites mk ws)
  | .error m => (.error m, mk)

/-- The arguments of the moderia `createServiceListing`
(`CreateServiceListingSchema`). -/
structure CreateListingArgs where
  serviceType : String
  providerName : String
  startTime : String
  endTime : String
  price : String
  walletAddress : String
  meetingLink : String
  description : Option String
deriving DecidableEq, Repr

/-- The service listing `createServiceListing` builds: all fields copied
from the arguments, status always available, object key derived from the
generated id. -/
def mkServiceListing (args : CreateListingArgs) (serviceId : String) :
    MoServiceListing :=
  { id := serviceId, serviceType := args.serviceType,
    providerName := args.providerName, startTime := args.startTime,
    endTime := args.endTime, price := args.price,
    walletAddress := args.walletAddress, meetingLink := args.meetingLink,
    description := args.description, status := ServiceStatus.available,
    createdAt := nowTs, objectKey := "service_" ++ serviceId ++ ".json" }

/-- The moderia `createServiceListing`: build the listing from the
arguments and store it in the services bucket under its object key.
The source validates nothing about the arguments. -/
def createServiceListing (services : List (String × MoServiceListing))
    (args : CreateListingArgs) (serviceId : String) :
    List (String × MoServiceListing) :=
  putAssoc services ("service_" ++ serviceId ++ ".json")
    (mkServiceListing args serviceId)

/-- The moderia `listAvailableServices`: walk the services bucket in
order, keep the listings that match the optional serviceType filter and
are available, then truncate with `slice(0, args.limit)` — the schema
defaults `limit` to 10 and offers no way to disable the truncation. -/
def listAvailableServices (services : List (String × MoServiceListing))
    (serviceType : Option String) (limit : Nat) : List MoServiceListing :=
  ((services.map Prod.snd).filter
    (fun sv => (serviceType.all fun t => sv.serviceType = t) &&
      sv.status = ServiceStatus.available)).take limit

theorem listAvailableServices_none (services : List (String × MoServiceListing))
    (limit : Nat) :
    listAvailableServices services none limit =
      ((services.map Prod.snd).filter
        (fun sv => sv.status = ServiceStatus.available)).take limit := rfl

/-! ## Marketplace provider (`MarketplaceActionProvider`)

Shallow embedding of `createService`, `listServices`, `bookService`,
`fileDispute` and `resolveDispute`.  The single Recall bucket with its
`services/`, `bookings/` and `disputes/` key prefixes becomes three
association lists keyed by entity id. -/

/-- Marketplace `BOOKING_STATUS` ("pending" / "confirmed" /
"completed" / "disputed" / "cancelled" / "refunded"). -/
inductive BookingStatus
  | pending
  | confirmed
  | completed
  | disputed
  | cancelled
  | refunded
deriving DecidableEq, Repr

/-- Dispute record status, the source strings "pending" and
"resolved". -/
inductive DisputeStatus
  | pending
  | resolved
deriving DecidableEq, Repr

/-- The `resolution` argument of `resolveDispute`: the source strings
"full_refund", "partial_refund" and "no_refund". -/
inductive Resolution
  | fullRefund
  | partRefund
  | noRefund
deriving DecidableEq, Repr

/-- A marketplace service record.  `bookedBy`/`updatedAt` are absent at
creation and added when the service is booked, hence optional.  The
price arrives as a string in the source and is stored unparsed; it is
modelled as an integer so that the condition price ≤ 0 is statable —
`createService` performs no check on it either way. -/
structure MService where
  id : String
  provider : String
  title : String
  description : String
  date : String
  startTime : String
  endTime : String
  timeZone : String
  price : Int
  status : ServiceStatus
  createdAt : String
  bookedBy : Option String
  updatedAt : Option String
deriving DecidableEq, Repr

/-- A marketplace booking record.  The nested `service` snapshot of the
source object is flattened into the `svc`-prefixed fields; the fields
added later by `completeService`, `fileDispute` and `resolveDispute`
are optional. -/
structure MBooking where
  id : String
  serviceId : String
  svcTitle : String
  svcProvider : String
  svcDate : String
  svcStartTime : String
  svcEndTime : String
  svcTimeZone : String
  svcPrice : Int
  clientName : String
  clientEmail : String
  meetingPlatform : String
  meetingLink : String
  status : BookingStatus
  meetingNotes : String
  createdAt : String
  successful : Option Bool
  comments : Option String
  completedAt : Option String
  disputeReason : Option String
  disputeEvidence : Option String
  disputeFiledAt : Option String
  disputeResolution : Option Resolution
  disputeResolutionNotes : Option String
  refundAmount : Option String
  resolvedAt : Option String
deriving DecidableEq, Repr

/-- A marketplace dispute record. -/
structure MDispute where
  id : String
  bookingId : String
  serviceId : String
  reason : String
  evidence : String
  status : DisputeStatus
  meetingNotes : String
  createdAt : String
  resolution : Option Resolution
  resolutionNotes : Option String
  refundAmount : Option String
  resolvedAt : Option String
deriving DecidableEq, Repr

/-- The marketplace bucket, split by key prefix. -/
structure MStore where
  services : List (String × MService)
  bookings : List (String × MBooking)
  disputes : List (String × MDispute)
deriving DecidableEq, Repr

/-- `ERROR_MESSAGES.SERVICE_ALREADY_BOOKED` (marketplace constants). -/
def SERVICE_ALREADY_BOOKED : String := "This service has already been booked."

/-- `ERROR_MESSAGES.FAILED_BOOKING_CREATION` followed by the in-line
"Service not found." annotation. -/
def BOOKING_SERVICE_NOT_FOUND : String :=
  "Failed to create booking. Service not found."

/-- `ERROR_MESSAGES.FAILED_DISPUTE_FILING` followed by "Booking not
found.". -/
def DISPUTE_BOOKING_NOT_FOUND : String :=
  "Failed to file dispute. Booking not found."

/-- `ERROR_MESSAGES.FAILED_DISPUTE_RESOLUTION` followed by "Booking not
found.". -/
def RESOLUTION_BOOKING_NOT_FOUND : String :=
  "Failed to resolve dispute. Booking not found."

/-- The message `This booking is not currently disputed. Current
status: <status>.` (the interpolated status is irrelevant to every
claim). -/
def NOT_CURRENTLY_DISPUTED : String :=
  "This booking is not currently disputed."

/-- The arguments of `createService` (`CreateServiceSchema`): all plain
strings in the source; the price is modelled as an integer (see
`MService.price`). -/
structure CreateServiceArgs where
  provider : String
  title : String
  description : String
  date : String
  startTime : String
  endTime : String
  timeZone : String
  price : Int
deriving DecidableEq, Repr

/-- The service object `createService` builds: all fields copied from
the arguments, status always available. -/
def mkService (args : CreateServiceArgs) (serviceId : String) : MService :=
  { id := serviceId, provider := args.provider, title := args.title,
    description := args.description, date := args.date,
    startTime := args.startTime, endTime := args.endTime,
    timeZone := args.timeZone, price := args.price,
    status := ServiceStatus.available, createdAt := nowTs,
    bookedBy := none, updatedAt := none }

/-- `createService`: build the service object from the arguments and
store it.  The source validates nothing about the arguments — no price
or time-window check exists on this path. -/
def createService (st : MStore) (args : CreateServiceArgs) (serviceId : String) :
    MStore :=
  { st with services := putAssoc st.services serviceId (mkService args serviceId) }

/-- The filter predicate of `listServices`: an empty filter matches
everything, otherwise the lowercased filter must occur in the lowercased
title, provider or description. -/
def svcFilterMatch (filter : String) (sv : MService) : Bool :=
  filter = "" ||
    (decide (filter.data <:+: sv.title.toLower.data) ||
     decide (filter.data <:+: sv.provider.toLower.data) ||
     decide (filter.data <:+: sv.description.toLower.data))

/-- `listServices`: read every stored service and keep those whose
status is available and which match the (lowercased) filter. -/
def listServices (st : MStore) (filterArg : Option String) : List MService :=
  (st.services.map Prod.snd).filter
    (fun sv => sv.status = ServiceStatus.available &&
      svcFilterMatch ((filterArg.map String.toLower).getD "") sv)

/-- The arguments of the marketplace `bookService`
(`BookServiceSchema`); `meetingPlatform` is one of "zoom" / "meet" /
"jitsi". -/
structure BookArgs where
  clientName : String
  clientEmail : String
  meetingPlatform : String
deriving DecidableEq, Repr

/-- The booking object `bookService` builds, including the service
snapshot and the generated meeting link. -/
def mkBookingRecord (sv : MService) (serviceId : String) (args : BookArgs)
    (bookingId : String) : MBooking :=
  { id := bookingId, serviceId := serviceId,
    svcTitle := sv.title, svcProvider := sv.provider, svcDate := sv.date,
    svcStartTime := sv.startTime, svcEndTime := sv.endTime,
    svcTimeZone := sv.timeZone, svcPrice := sv.price,
    clientName := args.clientName, clientEmail := args.clientEmail,
    meetingPlatform := args.meetingPlatform,
    meetingLink := "https://" ++ args.meetingPlatform ++
      ".example.com/meeting/" ++ bookingId,
    status := BookingStatus.confirmed, meetingNotes := "", createdAt := nowTs,
    successful := none, comments := none, completedAt := none,
    disputeReason := none, disputeEvidence := none, disputeFiledAt := none,
    disputeResolution := none, disputeResolutionNotes := none,
    refundAmount := none, resolvedAt := none }

/-- One write issued by the marketplace `bookService`, in issue
order. -/
inductive MWrite
  | bookingW (key : String) (b : MBooking)
  | serviceW (key : String) (sv : MService)
deriving DecidableEq, Repr

/-- The marketplace `bookService`: read the service, require it to be
available, then issue — in this order — the write of the new booking
record (status confirmed) followed by the write of the service record
with status booked and `bookedBy` set. -/
def bookService (st : MStore) (serviceId : String) (args : BookArgs)
    (bookingId : String) : Except String (List MWrite) :=
  match getAssoc st.services serviceId with
  | none => .error BOOKING_SERVICE_NOT_FOUND
  | some sv =>
    if sv.status ≠ ServiceStatus.available then
      .error SERVICE_ALREADY_BOOKED
    else
      .ok [MWrite.bookingW bookingId (mkBookingRecord sv serviceId args bookingId),
           MWrite.serviceW serviceId
             { sv with
                status := ServiceStatus.booked, bookedBy := some bookingId,
                updatedAt := some nowTs }]

/-- Apply one marketplace write to the store. -/
def applyWrite (st : MStore) : MWrite → MStore
  | .bookingW k b => { st with bookings := putAssoc st.bookings k b }
  | .serviceW k sv => { st with services := putAssoc st.services k sv }

def applyWrites (st : MStore) (ws : List MWrite) : MStore :=
  ws.foldl applyWrite st

/-- Run the marketplace `bookService` to completion: on success apply
its writes in order, on error leave the store untouched. -/
def runBookService (st : MStore) (serviceId : String) (args : BookArgs)
    (bookingId : String) : Except String Unit × MStore :=
  match bookService st serviceId args bookingId with
  | .ok ws => (.ok (), applyWrites st ws)
  | .error m => (.error m, st)

/-- The arguments of `fileDispute` (`FileDisputeSchema`). -/
structure FileDisputeArgs where
  reason : String
  evidence : Option String
deriving DecidableEq, Repr

/-- `fileDispute`: look the booking up (no status check of any kind),
mark it disputed with the dispute details, and create a new dispute
record with status pending. -/
def fileDispute (st : MStore) (bookingId : String) (args : FileDisputeArgs)
    (disputeId : String) : Except String MStore :=
  match getAssoc st.bookings bookingId with
  | none => .error DISPUTE_BOOKING_NOT_FOUND
  | some b =>
    let b2 : MBooking :=
      { b with
          status := BookingStatus.disputed,
          disputeReason := some args.reason,
          disputeEvidence := some (args.evidence.getD ""),
          disputeFiledAt := some nowTs }
    let d : MDispute :=
      { id := disputeId, bookingId := bookingId, serviceId := b.serviceId,
        reason := args.reason, evidence := args.evidence.getD "",
        status := DisputeStatus.pending, meetingNotes := b.meetingNotes,
        createdAt := nowTs, resolution := none, resolutionNotes := none,
        refundAmount := none, resolvedAt := none }
    .ok { st with
            bookings := putAssoc st.bookings bookingId b2,
            disputes := putAssoc st.disputes disputeId d }

/-- The dispute-update loop of `resolveDispute`: walk the dispute store
in order and overwrite the first record whose `bookingId` matches,
whatever its current status. -/
def resolveFirstDispute (l : List (String × MDispute)) (bookingId : String)
    (res : Resolution) (refundAmount : Option String) (notes : String) :
    List (String × MDispute) :=
  match l with
  | [] => []
  | (k, d) :: rest =>
    if d.bookingId = bookingId then
      (k, { d with
              status := DisputeStatus.resolved, resolution := some res,
              resolutionNotes := some notes,
              refundAmount := some (refundAmount.getD "0"),
              resolvedAt := some nowTs }) :: rest
    else
      (k, d) :: resolveFirstDispute rest bookingId res refundAmount notes

/-- `resolveDispute`: look the booking up and require its status to be
disputed (this is the only guard); set the booking to completed for a
no-refund resolution and to refunded otherwise, recording the free-form
`refundAmount` string; then resolve the first dispute record matching
the booking.  No escrow record is consulted and no transfer is
executed anywhere on this path. -/
def resolveDispute (st : MStore) (bookingId : String) (res : Resolution)
    (refundAmount : Option String) (notes : String) : Except String MStore :=
  match getAssoc st.bookings bookingId with
  | none => .error RESOLUTION_BOOKING_NOT_FOUND
  | some b =>
    if b.status ≠ BookingStatus.disputed then
      .error NOT_CURRENTLY_DISPUTED
    else
      let b2 : MBooking :=
        { b with
          status := if res = Resolution.noRefund then BookingStatus.completed
            else BookingStatus.refunded,
          disputeResolution := some res,
          disputeResolutionNotes := some notes,
          refundAmount := some (refundAmount.getD "0"),
          resolvedAt := some nowTs }
      .ok { st with
              bookings := putAssoc st.bookings bookingId b2,
              disputes := resolveFirstDispute st.disputes bookingId res refundAmount notes }

/-! ## Concrete fixtures for the marketplace claims -/

/-- Arguments of a well-formed service creation. -/
def cArgsW : CreateServiceArgs :=
  { provider := "Alice Web Development", title := "Website Consultation",
    description := "One-hour consultation", date := "2025-01-02",
    startTime := "10:00", endTime := "11:00", timeZone := "UTC", price := 50 }

/-- Arguments of a service creation with a non-positive price and an
inverted time window. -/
def cArgsNeg : CreateServiceArgs :=
  { provider := "Bob", title := "Quick Call", description := "d",
    date := "2025-01-02", startTime := "11:00", endTime := "10:00",
    timeZone := "UTC", price := -5 }

def bArgsW : BookArgs :=
  { clientName := "John Doe", clientEmail := "john@example.com",
    meetingPlatform := "zoom" }

def emptyStore : MStore := { services := [], bookings := [], disputes := [] }

/-- An available service as `createService` would store it. -/
def svcA : MService := mkService cArgsW "s1"

def mStoreAvail : MStore :=
  { services := [("s1", svcA)], bookings := [], disputes := [] }

/-- The same service after it has been booked. -/
def svcBooked : MService :=
  { svcA with
      status := ServiceStatus.booked, bookedBy := some "b0",
      updatedAt := some nowTs }

def mStoreBooked : MStore :=
  { services := [("s1", svcBooked)], bookings := [], disputes := [] }

/-- An available moderia service listing. -/
def msvA : MoServiceListing :=
  { id := "ms1", serviceType := "language_teaching", providerName := "Prof",
    startTime := "2025-01-02T10:00Z", endTime := "2025-01-02T11:00Z",
    price := "20", walletAddress := "0xprov",
    meetingLink := "https://meet.google.com/x", description := none,
    status := ServiceStatus.available, createdAt := nowTs,
    objectKey := "service_ms1.json" }

def moMarketAvail : MoMarket :=
  { services := [("service_ms1.json", msvA)], bookings := [] }

def msvBooked : MoServiceListing := { msvA with status := ServiceStatus.booked }

def moMarketBooked : MoMarket :=
  { services := [("service_ms1.json", msvBooked)], bookings := [] }

/-- A freshly created (confirmed) booking of `svcA`. -/
def confirmedBooking : MBooking := mkBookingRecord svcA "s1" bArgsW "b1"

def confirmedStore : MStore :=
  { services := [], bookings := [("b1", confirmedBooking)], disputes := [] }

/-- The booking after a dispute has been filed. -/
def disputedBooking : MBooking :=
  { confirmedBooking with status := BookingStatus.disputed }

/-- A dispute over booking b1 that has already been resolved. -/
def resolvedDispute : MDispute :=
  { id := "d1", bookingId := "b1", serviceId := "s1", reason := "no-show",
    evidence := "", status := DisputeStatus.resolved, meetingNotes := "",
    createdAt := nowTs, resolution := some Resolution.fullRefund,
    resolutionNotes := some "earlier", refundAmount := some "0",
    resolvedAt := some nowTs }

def disputedStore : MStore :=
  { services := [], bookings := [("b1", disputedBooking)],
    disputes := [("d1", resolvedDispute)] }

/-! ## Claims C4 to C9 -/

/-- C4 counterexample: on a store holding an available service, the
successful `bookService` issues the booking write first; at the moment
that write is applied the stored status of the referenced service is still
available (it is claimed only by the second write).  This contradicts
the claim that the service is set to booked before the booking record
is persisted and that a booking is never written while the service is
still available. -/
theorem service_claimed_after_booking_write_cex :
    bookService mStoreAvail "s1" bArgsW "b1" =
      .ok [MWrite.bookingW "b1" (mkBookingRecord svcA "s1" bArgsW "b1"),
           MWrite.serviceW "s1"
             { svcA with
                status := ServiceStatus.booked, bookedBy := some "b1",
                updatedAt := some nowTs }] ∧
    (getAssoc mStoreAvail.services "s1").map (fun sv => sv.status) =
      some ServiceStatus.available ∧
    (getAssoc (applyWrite mStoreAvail
        (MWrite.bookingW "b1" (mkBookingRecord svcA "s1" bArgsW "b1"))).services
      "s1").map (fun sv => sv.status) = some ServiceStatus.available ∧
    getAssoc (applyWrite mStoreAvail
        (MWrite.bookingW "b1" (mkBookingRecord svcA "s1" bArgsW "b1"))).bookings
      "b1" = some (mkBookingRecord svcA "s1" bArgsW "b1") := by
  refine ⟨rfl, by decide, by decide, by decide⟩

/-- C4 (amended): in both booking implementations every successful
`bookService` persists the new booking record first, while the
stored status of the referenced service is still available, and only the
second write claims the service (status booked).  The availability check
happens before either write. -/
theorem booking_persisted_before_service_claim
    (st : MStore) (sid : String) (args : BookArgs) (bid : String) (sv : MService)
    (hg : getAssoc st.services sid = some sv)
    (hs : sv.status = ServiceStatus.available)
    (mk : MoMarket) (msid mcn mbid : String) (mce msr : Option String)
    (msv : MoServiceListing)
    (hmg : (mk.services.map Prod.snd).find? (fun v => v.id = msid) = some msv)
    (hms : msv.status = ServiceStatus.available) :
    bookService st sid args bid =
      .ok [MWrite.bookingW bid (mkBookingRecord sv sid args bid),
           MWrite.serviceW sid
             { sv with
                status := ServiceStatus.booked, bookedBy := some bid,
                updatedAt := some nowTs }] ∧
    getAssoc (applyWrite st (MWrite.bookingW bid (mkBookingRecord sv sid args bid))).services
      sid = some sv ∧
    getAssoc (applyWrite st (MWrite.bookingW bid (mkBookingRecord sv sid args bid))).bookings
      bid = some (mkBookingRecord sv sid args bid) ∧
    moBookService mk msid mcn mce msr mbid =
      .ok [MoWrite.bookingW ("booking_" ++ mbid ++ ".json")
             { id := mbid, serviceId := msid, clientName := mcn,
               clientEmail := mce, specialRequests := msr, bookingTime := nowTs,
               status := MoBookingStatus.confirmed, escrowId := none,
               meetingId := none, objectKey := "booking_" ++ mbid ++ ".json" },
           MoWrite.serviceW msv.objectKey
             { msv with status := ServiceStatus.booked }] := by
  refine ⟨?_, ?_, ?_, ?_⟩
  · simp [bookService, hg, hs]
  · simp [applyWrite, hg]
  · simp [applyWrite, getAssoc_putAssoc_self]
  · simp [moBookService, hmg, hms]

theorem booking_persisted_before_service_claim_witness :
    getAssoc (applyWrite mStoreAvail
        (MWrite.bookingW "b1" (mkBookingRecord svcA "s1" bArgsW "b1"))).services
      "s1" = some svcA ∧
    getAssoc (applyWrite mStoreAvail
        (MWrite.bookingW "b1" (mkBookingRecord svcA "s1" bArgsW "b1"))).bookings
      "b1" = some (mkBookingRecord svcA "s1" bArgsW "b1") :=
  ⟨(booking_persisted_before_service_claim mStoreAvail "s1" bArgsW "b1" svcA
      (by decide) (by decide) moMarketAvail "ms1" "Cara" "mb1" none none msvA
      (by decide) (by decide)).2.1,
   (booking_persisted_before_service_claim mStoreAvail "s1" bArgsW "b1" svcA
      (by decide) (by decide) moMarketAvail "ms1" "Cara" "mb1" none none msvA
      (by decide) (by decide)).2.2.1⟩

/-- C5: a booking attempt against a service whose stored status is not
available fails with the unavailability error and leaves the store
completely unchanged, in both booking implementations. -/
theorem bookService_unavailable_leaves_store_unchanged
    (st : MStore) (sid : String) (args : BookArgs) (bid : String) (sv : MService)
    (hg : getAssoc st.services sid = some sv)
    (hs : sv.status ≠ ServiceStatus.available)
    (mk : MoMarket) (msid mcn mbid : String) (mce msr : Option String)
    (msv : MoServiceListing)
    (hmg : (mk.services.map Prod.snd).find? (fun v => v.id = msid) = some msv)
    (hms : msv.status ≠ ServiceStatus.available) :
    runBookService st sid args bid = (.error SERVICE_ALREADY_BOOKED, st) ∧
    moRunBookService mk msid mcn mce msr mbid =
      (.error MO_SERVICE_UNAVAILABLE, mk) := by
  constructor
  · simp [runBookService, bookService, hg, hs]
  · simp [moRunBookService, moBookService, hmg, hms]

theorem bookService_unavailable_leaves_store_unchanged_witness :
    runBookService mStoreBooked "s1" bArgsW "b1" =
      (.error SERVICE_ALREADY_BOOKED, mStoreBooked) ∧
    moRunBookService moMarketBooked "ms1" "Cara" none none "mb1" =
      (.error MO_SERVICE_UNAVAILABLE, moMarketBooked) :=
  bookService_unavailable_leaves_store_unchanged mStoreBooked "s1" bArgsW "b1"
    svcBooked (by decide) (by decide) moMarketBooked "ms1" "Cara" "mb1" none none
    msvBooked (by decide) (by decide)

/-- C6 counterexample: with price -5 (≤ 0) and the window end before the
start, `createService` does not fail with a validation error: it stores
the service record anyway, with status available.  No validation of
price or window exists on this path. -/
theorem createService_no_validation_cex :
    cArgsNeg.price ≤ 0 ∧
    getAssoc (createService emptyStore cArgsNeg "s9").services "s9" =
      some (mkService cArgsNeg "s9") ∧
    (mkService cArgsNeg "s9").status = ServiceStatus.available := by
  refine ⟨by decide, by decide, by decide⟩

/-- C6 (amended): `createService` performs no validation at all: for
every input — including one with price ≤ 0 or window end ≤ start — it
stores a service record built from the arguments, and every created
initial status of every created service is available. -/
theorem createService_always_creates_available
    (st : MStore) (args : CreateServiceArgs) (sid : String) :
    getAssoc (createService st args sid).services sid = some (mkService args sid) ∧
    (mkService args sid).status = ServiceStatus.available :=
  ⟨by simp [createService, getAssoc_putAssoc_self], rfl⟩

/-- C7 counterexample: the store holds a booking in disputed status and
a dispute record over that booking which is already resolved (with
resolution notes "earlier").  `resolveDispute` succeeds and overwrites
that already-resolved dispute record (its notes become "again"), instead
of failing and changing nothing; and because its result contains no
escrow component at all, no escrow action accompanies the resolution. -/
theorem resolveDispute_overwrites_resolved_dispute_cex :
    (getAssoc disputedStore.disputes "d1").map (fun d => d.status) =
      some DisputeStatus.resolved ∧
    (resolveDispute disputedStore "b1" Resolution.fullRefund none "again").isOk = true ∧
    ((resolveDispute disputedStore "b1" Resolution.fullRefund none "again").toOption.bind
        (fun s => getAssoc s.disputes "d1")).map (fun d => d.resolutionNotes) =
      some (some "again") ∧
    (getAssoc disputedStore.disputes "d1").map (fun d => d.resolutionNotes) =
      some (some "earlier") := by
  refine ⟨by decide, by decide, by decide, by decide⟩

/-- C7 (amended): on a booking in disputed status, `resolveDispute`
updates stored records only: it sets the booking to completed for a
no-refund resolution and to refunded otherwise, records the resolution
data (the refund amount is a free-form string, not a percentage of the
price), and marks the first dispute record matching the booking as
resolved, whatever the previous status of that record; no escrow action and
no transfer is performed.  When the booking is not in disputed status
(in particular after a previous resolution moved it to completed or
refunded) the call fails and changes nothing. -/
theorem resolveDispute_records_only
    (st : MStore) (bid : String) (res : Resolution) (ra : Option String)
    (notes : String) (b : MBooking)
    (hg : getAssoc st.bookings bid = some b) :
    (b.status = BookingStatus.disputed →
      resolveDispute st bid res ra notes = .ok
        { st with
            bookings := putAssoc st.bookings bid
              { b with
                  status := if res = Resolution.noRefund then BookingStatus.completed
                    else BookingStatus.refunded,
                  disputeResolution := some res,
                  disputeResolutionNotes := some notes,
                  refundAmount := some (ra.getD "0"), resolvedAt := some nowTs },
            disputes := resolveFirstDispute st.disputes bid res ra notes }) ∧
    (b.status ≠ BookingStatus.disputed →
      resolveDispute st bid res ra notes = .error NOT_CURRENTLY_DISPUTED) := by
  constructor
  · intro h
    simp [resolveDispute, hg, h]
  · intro h
    simp [resolveDispute, hg, h]

theorem resolveDispute_records_only_witness :
    resolveDispute disputedStore "b1" Resolution.fullRefund none "done" = .ok
      { disputedStore with
          bookings := putAssoc disputedStore.bookings "b1"
            { disputedBooking with
                status := BookingStatus.refunded,
                disputeResolution := some Resolution.fullRefund,
                disputeResolutionNotes := some "done",
                refundAmount := some "0", resolvedAt := some nowTs },
          disputes := resolveFirstDispute disputedStore.disputes "b1"
            Resolution.fullRefund none "done" } := by
  have h := (resolveDispute_records_only disputedStore "b1" Resolution.fullRefund
    none "done" disputedBooking (by decide)).1 (by decide)
  simpa using h

/-- C8 counterexample: the only booking in the store is in confirmed status —
neither completed nor disputed — yet `fileDispute` succeeds, creates a
dispute record (status pending) and moves the booking to disputed,
instead of failing and creating nothing. -/
theorem fileDispute_confirmed_booking_cex :
    (getAssoc confirmedStore.bookings "b1").map (fun b => b.status) =
      some BookingStatus.confirmed ∧
    (fileDispute confirmedStore "b1" { reason := "late", evidence := none } "d1").isOk =
      true ∧
    ((fileDispute confirmedStore "b1" { reason := "late", evidence := none } "d1").toOption.bind
        (fun s => getAssoc s.disputes "d1")).map (fun d => d.status) =
      some DisputeStatus.pending ∧
    ((fileDispute confirmedStore "b1" { reason := "late", evidence := none } "d1").toOption.bind
        (fun s => getAssoc s.bookings "b1")).map (fun b => b.status) =
      some BookingStatus.disputed := by
  refine ⟨by decide, by decide, by decide, by decide⟩

/-- C8 (amended): `fileDispute` checks nothing about the booking
status: for every existing booking — whatever its status — it succeeds,
sets the booking to disputed and creates a pending dispute record; only
a missing booking makes it fail. -/
theorem fileDispute_succeeds_any_status
    (st : MStore) (bid did : String) (args : FileDisputeArgs) (b : MBooking)
    (hg : getAssoc st.bookings bid = some b) :
    fileDispute st bid args did = .ok
      { st with
          bookings := putAssoc st.bookings bid
            { b with
                status := BookingStatus.disputed,
                disputeReason := some args.reason,
                disputeEvidence := some (args.evidence.getD ""),
                disputeFiledAt := some nowTs },
          disputes := putAssoc st.disputes did
            { id := did, bookingId := bid, serviceId := b.serviceId,
              reason := args.reason, evidence := args.evidence.getD "",
              status := DisputeStatus.pending, meetingNotes := b.meetingNotes,
              createdAt := nowTs, resolution := none, resolutionNotes := none,
              refundAmount := none, resolvedAt := none } } := by
  simp [fileDispute, hg]

theorem fileDispute_succeeds_any_status_witness :
    fileDispute confirmedStore "b1" { reason := "late", evidence := none } "d1" = .ok
      { confirmedStore with
          bookings := putAssoc confirmedStore.bookings "b1"
            { confirmedBooking with
                status := BookingStatus.disputed,
                disputeReason := some "late",
                disputeEvidence := some "",
                disputeFiledAt := some nowTs },
          disputes := putAssoc confirmedStore.disputes "d1"
            { id := "d1", bookingId := "b1", serviceId := "s1",
              reason := "late", evidence := "",
              status := DisputeStatus.pending, meetingNotes := "",
              createdAt := nowTs, resolution := none, resolutionNotes := none,
              refundAmount := none, resolvedAt := none } } := by
  have h := fileDispute_succeeds_any_status confirmedStore "b1" "d1"
    { reason := "late", evidence := none } confirmedBooking (by decide)
  simpa using h

/-- A plain available moderia listing with a given id, stored under its
derived object key. -/
def mkPlainListing (i : String) : MoServiceListing :=
  { id := i, serviceType := "language_teaching", providerName := "Prof",
    startTime := "2025-01-02T10:00Z", endTime := "2025-01-02T11:00Z",
    price := "20", walletAddress := "0xprov",
    meetingLink := "https://meet.google.com/x", description := none,
    status := ServiceStatus.available, createdAt := nowTs,
    objectKey := "service_" ++ i ++ ".json" }

/-- A moderia services bucket already holding ten available listings. -/
def moTenBucket : List (String × MoServiceListing) :=
  ["ms01", "ms02", "ms03", "ms04", "ms05",
   "ms06", "ms07", "ms08", "ms09", "ms10"].map
    (fun i => ("service_" ++ i ++ ".json", mkPlainListing i))

def cslArgsW : CreateListingArgs :=
  { serviceType := "language_teaching", providerName := "Nova",
    startTime := "2025-01-03T10:00Z", endTime := "2025-01-03T11:00Z",
    price := "30", walletAddress := "0xnova",
    meetingLink := "https://meet.google.com/y", description := none }

/-- C9 counterexample: with ten available listings already in the
bucket, `createServiceListing` stores an eleventh, whose stored status
is available — yet the unfiltered `listAvailableServices` at the schema
default limit 10 returns only the ten earlier listings, excluding the
newly created still-available service.  The claimed inclusion therefore
fails for the cited moderia implementation. -/
theorem listAvailableServices_truncation_cex :
    (getAssoc (createServiceListing moTenBucket cslArgsW "msNew")
        "service_msNew.json").map (fun sv => sv.status) =
      some ServiceStatus.available ∧
    (listAvailableServices (createServiceListing moTenBucket cslArgsW "msNew")
        none 10).map (fun sv => sv.id) =
      ["ms01", "ms02", "ms03", "ms04", "ms05",
       "ms06", "ms07", "ms08", "ms09", "ms10"] := by
  refine ⟨by decide, by decide⟩

/-- C9 (amended): a service stored by the marketplace `createService`
appears, with all its fields unchanged, in the output of an unfiltered
`listServices` while available, and once `bookService` succeeds against
it no service with its id appears in subsequent unfiltered output (the
`hnd`/`hids` hypotheses say the store is a well-formed bucket: unique
keys, records stored under their own id).  The moderia pair behaves the
same up to truncation: `listAvailableServices` returns only the first
`limit` available listings (schema default 10), so the listing stored by
`createServiceListing` is included — fields unchanged — whenever the
available listings fit within the limit (`hcount`), and after a
successful moderia `bookService` no listed service carries the booked id
(the `hmnd`/`hmkeys`/`hmids` hypotheses say the bucket is well-formed:
unique keys, records keyed by their own object key, unique ids). -/
theorem createService_listServices_roundtrip
    (st : MStore) (cargs : CreateServiceArgs) (sid : String)
    (bargs : BookArgs) (bid : String)
    (msvcs : List (String × MoServiceListing)) (cargs2 : CreateListingArgs)
    (msid : String) (mlimit : Nat)
    (mk : MoMarket) (bsid mcn mbid : String) (mce msr : Option String)
    (mlimit2 : Nat)
    (hnd : (st.services.map Prod.fst).Nodup)
    (hids : ∀ p ∈ st.services, p.1 = p.2.id)
    (hcount : (((createServiceListing msvcs cargs2 msid).map Prod.snd).filter
        (fun sv => sv.status = ServiceStatus.available)).length ≤ mlimit)
    (hmnd : (mk.services.map Prod.fst).Nodup)
    (hmkeys : ∀ p ∈ mk.services, p.1 = p.2.objectKey)
    (hmids : (mk.services.map (fun p => p.2.id)).Nodup) :
    mkService cargs sid ∈ listServices (createService st cargs sid) none ∧
    (∀ ws, bookService (createService st cargs sid) sid bargs bid = .ok ws →
      ∀ t ∈ listServices (applyWrites (createService st cargs sid) ws) none,
        t.id ≠ sid) ∧
    mkServiceListing cargs2 msid ∈
      listAvailableServices (createServiceListing msvcs cargs2 msid) none mlimit ∧
    (∀ mws, moBookService mk bsid mcn mce msr mbid = .ok mws →
      ∀ sv ∈ listAvailableServices (moApplyWrites mk mws).services none mlimit2,
        sv.id ≠ bsid) := by
  refine ⟨?_, ?_, ?_, ?_⟩
  · rw [listServices]
    refine List.mem_filter.mpr ⟨?_, ?_⟩
    · exact List.mem_map_of_mem Prod.snd
        (self_mem_putAssoc st.services sid (mkService cargs sid))
    · simp [mkService, svcFilterMatch]
  · intro ws hws t ht
    have hget : getAssoc (createService st cargs sid).services sid =
        some (mkService cargs sid) := by
      simp [createService, getAssoc_putAssoc_self]
    have heq : bookService (createService st cargs sid) sid bargs bid =
        .ok [MWrite.bookingW bid (mkBookingRecord (mkService cargs sid) sid bargs bid),
             MWrite.serviceW sid
               { mkService cargs sid with
                  status := ServiceStatus.booked, bookedBy := some bid,
                  updatedAt := some nowTs }] := by
      simp [bookService, hget, mkService]
    rw [heq] at hws
    cases hws
    rw [listServices] at ht
    obtain ⟨hmem, hpred⟩ := List.mem_filter.mp ht
    obtain ⟨pair, hpair, hsnd⟩ := List.mem_map.mp hmem
    have hpair2 : pair ∈ putAssoc (putAssoc st.services sid (mkService cargs sid))
        sid { mkService cargs sid with
                status := ServiceStatus.booked, bookedBy := some bid,
                updatedAt := some nowTs } := by
      simpa [applyWrites, applyWrite, createService] using hpair
    have hnd1 : ((putAssoc st.services sid (mkService cargs sid)).map Prod.fst).Nodup :=
      nodup_keys_putAssoc sid (mkService cargs sid) st.services hnd
    rcases mem_putAssoc _ _ _ pair hnd1 hpair2 with hcase | ⟨hmem1, hne⟩
    · exfalso
      rw [hcase] at hsnd
      rw [← hsnd] at hpred
      simp at hpred
    · rcases mem_putAssoc _ _ _ pair hnd hmem1 with hcase' | ⟨hmem0, hne'⟩
      · exact absurd (by rw [hcase']) hne
      · intro hid
        exact hne' (by rw [hids pair hmem0, hsnd, hid])
  · rw [listAvailableServices_none, List.take_of_length_le hcount]
    refine List.mem_filter.mpr ⟨?_, ?_⟩
    · exact List.mem_map_of_mem Prod.snd
        (self_mem_putAssoc msvcs ("service_" ++ msid ++ ".json")
          (mkServiceListing cargs2 msid))
    · simp [mkServiceListing]
  · intro mws hmws sv hsv
    cases hf : (mk.services.map Prod.snd).find? (fun v => v.id = bsid) with
    | none => simp [moBookService, hf] at hmws
    | some msv =>
      by_cases hstat : msv.status = ServiceStatus.available
      · have heq : moBookService mk bsid mcn mce msr mbid =
            .ok [MoWrite.bookingW ("booking_" ++ mbid ++ ".json")
                   { id := mbid, serviceId := bsid, clientName := mcn,
                     clientEmail := mce, specialRequests := msr,
                     bookingTime := nowTs,
                     status := MoBookingStatus.confirmed, escrowId := none,
                     meetingId := none,
                     objectKey := "booking_" ++ mbid ++ ".json" },
                 MoWrite.serviceW msv.objectKey
                   { msv with status := ServiceStatus.booked }] := by
          simp [moBookService, hf, hstat]
        rw [heq] at hmws
        cases hmws
        rw [listAvailableServices_none] at hsv
        have hsv2 := List.mem_of_mem_take hsv
        obtain ⟨hmem, hpred⟩ := List.mem_filter.mp hsv2
        obtain ⟨pair, hpair, hsnd⟩ := List.mem_map.mp hmem
        have hpair2 : pair ∈ putAssoc mk.services msv.objectKey
            { msv with status := ServiceStatus.booked } := by
          simpa [moApplyWrites, moApplyWrite] using hpair
        rcases mem_putAssoc _ _ _ pair hmnd hpair2 with hcase | ⟨hmem0, hne⟩
        · exfalso
          rw [hcase] at hsnd
          rw [← hsnd] at hpred
          simp at hpred
        · intro hid
          have hmsv_mem : msv ∈ mk.services.map Prod.snd :=
            List.mem_of_find?_eq_some hf
          have hmsv_id : msv.id = bsid := by
            have := List.find?_some hf
            simpa using this
          obtain ⟨q, hq, hqsnd⟩ := List.mem_map.mp hmsv_mem
          have hqkey : q.1 = msv.objectKey := by rw [hmkeys q hq, hqsnd]
          have hideq : pair.2.id = q.2.id := by
            rw [hqsnd, hmsv_id, hsnd, hid]
          have hpq : pair = q :=
            List.inj_on_of_nodup_map hmids hmem0 hq hideq
          exact hne (by rw [hpq, hqkey])
      · simp [moBookService, hf, hstat] at hmws

theorem createService_listServices_roundtrip_witness :
    mkService cArgsW "s1" ∈ listServices (createService emptyStore cArgsW "s1") none ∧
    mkServiceListing cslArgsW "msNew" ∈
      listAvailableServices (createServiceListing [] cslArgsW "msNew") none 10 :=
  ⟨(createService_listServices_roundtrip emptyStore cArgsW "s1" bArgsW "b1"
      [] cslArgsW "msNew" 10 moMarketAvail "ms1" "Cara" "mb1" none none 10
      (by decide) (by decide) (by decide) (by decide) (by decide) (by decide)).1,
   (createService_listServices_roundtrip emptyStore cArgsW "s1" bArgsW "b1"
      [] cslArgsW "msNew" 10 moMarketAvail "ms1" "Cara" "mb1" none none 10
      (by decide) (by decide) (by decide) (by decide) (by decide) (by decide)).2.2.1⟩

end ModerIA
